import Mathlib

/-!
Verification of the eBPF opcode model (`asm/opcode.go`).

`OpCode` is a `uint32` in the source; we embed it as `Nat` together with
explicit 32-bit mask arithmetic (`compl32` models Go's `^mask` on a
`uint32` operand).  All operations are translated from `asm/opcode.go`.
The sibling files that declare facet constants (modes, sizes, sources,
ALU/jump/atomic operations and their `String` methods) are not part of
the sources at hand, so those constants are modelled from the spec, as
indicated by their doc comments.
-/

set_option maxRecDepth 10000

namespace Asm

/-- Go: `const classMask OpCode = 0x07` -/
def classMask : Nat := 0x07

/-- Go: `LdClass Class = 0x00` — loads immediate values into registers. -/
def LdClass : Nat := 0x00

/-- Go: `LdXClass Class = 0x01` — loads memory into registers. -/
def LdXClass : Nat := 0x01

/-- Go: `StClass Class = 0x02` — stores immediate values to memory. -/
def StClass : Nat := 0x02

/-- Go: `StXClass Class = 0x03` — stores registers to memory. -/
def StXClass : Nat := 0x03

/-- Go: `ALUClass Class = 0x04` — arithmetic operators. -/
def ALUClass : Nat := 0x04

/-- Go: `JumpClass Class = 0x05` — jump operators. -/
def JumpClass : Nat := 0x05

/-- Go: `Jump32Class Class = 0x06` — jump operators with 32-bit comparisons. -/
def Jump32Class : Nat := 0x06

/-- Go: `ALU64Class Class = 0x07` — arithmetic operators in 64-bit mode. -/
def ALU64Class : Nat := 0x07

/-- Go: `func (cls Class) IsLoad() bool` -/
def Class.IsLoad (cls : Nat) : Bool :=
  cls == LdClass || cls == LdXClass

/-- Go: `func (cls Class) IsStore() bool` -/
def Class.IsStore (cls : Nat) : Bool :=
  cls == StClass || cls == StXClass

/-- Go: `func (cls Class) isLoadOrStore() bool` -/
def Class.isLoadOrStore (cls : Nat) : Bool :=
  Class.IsLoad cls || Class.IsStore cls

/-- Go: `func (cls Class) IsALU() bool` -/
def Class.IsALU (cls : Nat) : Bool :=
  cls == ALUClass || cls == ALU64Class

/-- Go: `func (cls Class) IsJump() bool` -/
def Class.IsJump (cls : Nat) : Bool :=
  cls == JumpClass || cls == Jump32Class

/-- Go: `func (cls Class) isJumpOrALU() bool` -/
def Class.isJumpOrALU (cls : Nat) : Bool :=
  Class.IsJump cls || Class.IsALU cls

/-- Go: `const InvalidOpCode OpCode = 0xffff` — returned by setters on OpCode. -/
def InvalidOpCode : Nat := 0xffff

/-- Go's `^mask` on an `OpCode` (`uint32`) operand: 32-bit complement. -/
def compl32 (m : Nat) : Nat := 0xffffffff ^^^ m

/-- Go: `func valid(value, mask OpCode) bool` — true if all bits in
`value` are covered by `mask`. -/
def valid (value mask : Nat) : Bool := value &&& compl32 mask == 0

/-- Modelled from the spec: Mode is bits 5–7 of the opcode byte, so the
mode mask is `0xe0`. -/
def modeMask : Nat := 0xe0

/-- Modelled from the spec: `InvalidMode` is a sentinel outside the mode
mask. -/
def InvalidMode : Nat := 0xff

/-- Modelled from the spec: the Immediate addressing mode (kernel uapi
`BPF_IMM = 0x00`). -/
def ImmMode : Nat := 0x00

/-- Modelled from the spec: the Absolute addressing mode (kernel uapi
`BPF_ABS = 0x20`). -/
def AbsMode : Nat := 0x20

/-- Modelled from the spec: the Indirect addressing mode (kernel uapi
`BPF_IND = 0x40`). -/
def IndMode : Nat := 0x40

/-- Modelled from the spec: the Memory addressing mode (kernel uapi
`BPF_MEM = 0x60`). -/
def MemMode : Nat := 0x60

/-- Modelled from the spec: the sign-extended memory addressing mode
(kernel uapi `BPF_MEMSX = 0x80`). -/
def MemSXMode : Nat := 0x80

/-- Modelled from the spec: the legacy Xadd addressing mode (kernel uapi
`BPF_XADD = 0xc0`), numerically identical to `AtomicMode`. -/
def XAddMode : Nat := 0xc0

/-- Modelled from the spec: the Atomic addressing mode (kernel uapi
`BPF_ATOMIC = 0xc0`). -/
def AtomicMode : Nat := 0xc0

/-- Modelled from the spec: Size is bits 3–4 of the opcode byte, so the
size mask is `0x18`. -/
def sizeMask : Nat := 0x18

/-- Modelled from the spec: `InvalidSize` is a sentinel outside the size
mask. -/
def InvalidSize : Nat := 0xff

/-- Modelled from the spec: 32-bit access width (kernel uapi `BPF_W = 0x00`). -/
def Word : Nat := 0x00

/-- Modelled from the spec: 16-bit access width (kernel uapi `BPF_H = 0x08`). -/
def Half : Nat := 0x08

/-- Modelled from the spec: 8-bit access width (kernel uapi `BPF_B = 0x10`). -/
def Byte : Nat := 0x10

/-- Modelled from the spec: 64-bit access width (kernel uapi `BPF_DW = 0x18`). -/
def DWord : Nat := 0x18

/-- Modelled from the spec: Source is bit 3 of the opcode byte, so the
source mask is `0x08`. -/
def sourceMask : Nat := 0x08

/-- Modelled from the spec: `InvalidSource` is a sentinel outside the
source mask. -/
def InvalidSource : Nat := 0xffff

/-- Modelled from the spec: the operand is the immediate (kernel uapi
`BPF_K = 0x00`). -/
def ImmSource : Nat := 0x00

/-- Modelled from the spec: the operand is a register (kernel uapi
`BPF_X = 0x08`). -/
def RegSource : Nat := 0x08

/-- Modelled from the spec: Endianness shares bit 3 with Source. -/
def endianMask : Nat := 0x08

/-- Modelled from the spec: `InvalidEndian` is a sentinel outside the
endianness mask. -/
def InvalidEndian : Nat := 0xff

/-- Modelled from the spec: convert to little endian (kernel uapi
`BPF_TO_LE = 0x00`). -/
def LittleEndian : Nat := 0x00

/-- Modelled from the spec: convert to big endian (kernel uapi
`BPF_TO_BE = 0x08`). -/
def BigEndian : Nat := 0x08

/-- Modelled from the spec: ALUOp sits in the high nibble of the opcode
byte, mask `0xf0`. -/
def aluMask : Nat := 0xf0

/-- Modelled from the spec: `InvalidALUOp` is a sentinel outside the ALU
mask. -/
def InvalidALUOp : Nat := 0xffff

/-- Modelled from the spec: the ALU operations, kernel uapi encodings in
the high nibble. -/
def ALU.Add : Nat := 0x00

/-- Modelled from the spec: kernel uapi `BPF_SUB = 0x10`. -/
def ALU.Sub : Nat := 0x10

/-- Modelled from the spec: kernel uapi `BPF_MUL = 0x20`. -/
def ALU.Mul : Nat := 0x20

/-- Modelled from the spec: kernel uapi `BPF_DIV = 0x30`. -/
def ALU.Div : Nat := 0x30

/-- Modelled from the spec: kernel uapi `BPF_OR = 0x40`. -/
def ALU.Or : Nat := 0x40

/-- Modelled from the spec: kernel uapi `BPF_AND = 0x50`. -/
def ALU.And : Nat := 0x50

/-- Modelled from the spec: kernel uapi `BPF_LSH = 0x60`. -/
def ALU.LSh : Nat := 0x60

/-- Modelled from the spec: kernel uapi `BPF_RSH = 0x70`. -/
def ALU.RSh : Nat := 0x70

/-- Modelled from the spec: kernel uapi `BPF_NEG = 0x80`. -/
def ALU.Neg : Nat := 0x80

/-- Modelled from the spec: kernel uapi `BPF_MOD = 0x90`. -/
def ALU.Mod : Nat := 0x90

/-- Modelled from the spec: kernel uapi `BPF_XOR = 0xa0`. -/
def ALU.Xor : Nat := 0xa0

/-- Modelled from the spec: kernel uapi `BPF_MOV = 0xb0`. -/
def ALU.Mov : Nat := 0xb0

/-- Modelled from the spec: kernel uapi `BPF_ARSH = 0xc0`. -/
def ALU.ArSh : Nat := 0xc0

/-- Modelled from the spec: the byte-swap operation (kernel uapi
`BPF_END = 0xd0`). -/
def ALU.Swap : Nat := 0xd0

/-- Modelled from the spec: JumpOp sits in the high nibble of the opcode
byte, mask `0xf0`. -/
def jumpMask : Nat := 0xf0

/-- Modelled from the spec: `InvalidJumpOp` is a sentinel outside the
jump mask. -/
def InvalidJumpOp : Nat := 0xffff

/-- Modelled from the spec: unconditional jump (kernel uapi `BPF_JA = 0x00`). -/
def Ja : Nat := 0x00

/-- Modelled from the spec: kernel uapi `BPF_JEQ = 0x10`. -/
def JEq : Nat := 0x10

/-- Modelled from the spec: kernel uapi `BPF_JGT = 0x20`. -/
def JGT : Nat := 0x20

/-- Modelled from the spec: kernel uapi `BPF_JGE = 0x30`. -/
def JGE : Nat := 0x30

/-- Modelled from the spec: kernel uapi `BPF_JSET = 0x40`. -/
def JSet : Nat := 0x40

/-- Modelled from the spec: kernel uapi `BPF_JNE = 0x50`. -/
def JNE : Nat := 0x50

/-- Modelled from the spec: kernel uapi `BPF_JSGT = 0x60`. -/
def JSGT : Nat := 0x60

/-- Modelled from the spec: kernel uapi `BPF_JSGE = 0x70`. -/
def JSGE : Nat := 0x70

/-- Modelled from the spec: function call (kernel uapi `BPF_CALL = 0x80`). -/
def Call : Nat := 0x80

/-- Modelled from the spec: program exit (kernel uapi `BPF_EXIT = 0x90`). -/
def Exit : Nat := 0x90

/-- Modelled from the spec: kernel uapi `BPF_JLT = 0xa0`. -/
def JLT : Nat := 0xa0

/-- Modelled from the spec: kernel uapi `BPF_JLE = 0xb0`. -/
def JLE : Nat := 0xb0

/-- Modelled from the spec: kernel uapi `BPF_JSLT = 0xc0`. -/
def JSLT : Nat := 0xc0

/-- Modelled from the spec: kernel uapi `BPF_JSLE = 0xd0`. -/
def JSLE : Nat := 0xd0

/-- Modelled from the spec and the encoding diagram in `asm/opcode.go`:
for `StXClass` with `MDE == AtomicMode` the atomic operation occupies the
second byte of the 32-bit opcode carrier, so the atomic mask is `0xff00`. -/
def atomicMask : Nat := 0xff00

/-- Modelled from the spec: `InvalidAtomic` is a sentinel outside the
atomic mask. -/
def InvalidAtomic : Nat := 0xffffffff

/-- Modelled from the spec: atomic add (kernel uapi `BPF_ADD`, shifted
into the second byte). -/
def AddAtomic : Nat := 0x0000

/-- Modelled from the spec: atomic add with fetch (fetch bit set). -/
def FetchAdd : Nat := 0x0100

/-- Modelled from the spec: atomic or (kernel uapi `BPF_OR`, shifted). -/
def OrAtomic : Nat := 0x4000

/-- Modelled from the spec: atomic or with fetch. -/
def FetchOr : Nat := 0x4100

/-- Modelled from the spec: atomic and (kernel uapi `BPF_AND`, shifted). -/
def AndAtomic : Nat := 0x5000

/-- Modelled from the spec: atomic and with fetch. -/
def FetchAnd : Nat := 0x5100

/-- Modelled from the spec: atomic xor (kernel uapi `BPF_XOR`, shifted). -/
def XorAtomic : Nat := 0xa000

/-- Modelled from the spec: atomic xor with fetch. -/
def FetchXor : Nat := 0xa100

/-- Modelled from the spec: atomic exchange (kernel uapi `BPF_XCHG`,
shifted). -/
def XChg : Nat := 0xe100

/-- Modelled from the spec: atomic compare-and-exchange (kernel uapi
`BPF_CMPXCHG`, shifted). -/
def CmpXChg : Nat := 0xf100

/-- Go: `func (op OpCode) bpfOpCode() (byte, error)` — returns the actual
BPF opcode, or fails when bits outside the low byte are set.  The
fallible Go `(byte, error)` return is embedded as `Option`. -/
def OpCode.bpfOpCode (op : Nat) : Option Nat :=
  let opCodeMask := 0xff
  if !valid op opCodeMask then none
  else some (op &&& opCodeMask)

/-- Go: `func (op OpCode) Class() Class` -/
def OpCode.Class (op : Nat) : Nat := op &&& classMask

/-- Go: `func (op OpCode) Mode() Mode` -/
def OpCode.Mode (op : Nat) : Nat :=
  if !Class.isLoadOrStore (OpCode.Class op) then InvalidMode
  else op &&& modeMask

/-- Go: `func (op OpCode) Size() Size` -/
def OpCode.Size (op : Nat) : Nat :=
  if !Class.isLoadOrStore (OpCode.Class op) then InvalidSize
  else op &&& sizeMask

/-- Go: `func (op OpCode) AtomicOp() AtomicOp` -/
def OpCode.AtomicOp (op : Nat) : Nat :=
  if OpCode.Class op != StXClass || OpCode.Mode op != AtomicMode then InvalidAtomic
  else op &&& atomicMask

/-- Go: `func (op OpCode) ALUOp() ALUOp` -/
def OpCode.ALUOp (op : Nat) : Nat :=
  if !Class.IsALU (OpCode.Class op) then InvalidALUOp
  else op &&& aluMask

/-- Go: `func (op OpCode) Source() Source` -/
def OpCode.Source (op : Nat) : Nat :=
  if !Class.isJumpOrALU (OpCode.Class op) || OpCode.ALUOp op == ALU.Swap then InvalidSource
  else op &&& sourceMask

/-- Go: `func (op OpCode) Endianness() Endianness` -/
def OpCode.Endianness (op : Nat) : Nat :=
  if OpCode.ALUOp op != ALU.Swap then InvalidEndian
  else op &&& endianMask

/-- Go: `func (op OpCode) JumpOp() JumpOp` — returns `InvalidJumpOp` if
the opcode does not encode a jump; `Exit` and `Call` are only supported
by `JumpClass`, not `Jump32Class`. -/
def OpCode.JumpOp (op : Nat) : Nat :=
  if !Class.IsJump (OpCode.Class op) then InvalidJumpOp
  else
    let jumpOp := op &&& jumpMask
    if OpCode.Class op == Jump32Class && (jumpOp == Exit || jumpOp == Call) then
      InvalidJumpOp
    else jumpOp

/-- Go: `func (op OpCode) SetMode(mode Mode) OpCode` -/
def OpCode.SetMode (op mode : Nat) : Nat :=
  if !Class.isLoadOrStore (OpCode.Class op) || !valid mode modeMask then InvalidOpCode
  else (op &&& compl32 modeMask) ||| mode

/-- Go: `func (op OpCode) SetSize(size Size) OpCode` -/
def OpCode.SetSize (op size : Nat) : Nat :=
  if !Class.isLoadOrStore (OpCode.Class op) || !valid size sizeMask then InvalidOpCode
  else (op &&& compl32 sizeMask) ||| size

/-- Go: `func (op OpCode) SetAtomicOp(atomic AtomicOp) OpCode` -/
def OpCode.SetAtomicOp (op atomic : Nat) : Nat :=
  if OpCode.Class op != StXClass || OpCode.Mode op != AtomicMode
      || !valid atomic atomicMask then InvalidOpCode
  else (op &&& compl32 atomicMask) ||| atomic

/-- Go: `func (op OpCode) SetSource(source Source) OpCode` -/
def OpCode.SetSource (op source : Nat) : Nat :=
  if !Class.isJumpOrALU (OpCode.Class op) || !valid source sourceMask then InvalidOpCode
  else (op &&& compl32 sourceMask) ||| source

/-- Go: `func (op OpCode) SetALUOp(alu ALUOp) OpCode` -/
def OpCode.SetALUOp (op alu : Nat) : Nat :=
  if !Class.IsALU (OpCode.Class op) || !valid alu aluMask then InvalidOpCode
  else (op &&& compl32 aluMask) ||| alu

/-- Go: `func (op OpCode) SetJumpOp(jump JumpOp) OpCode` — after packing,
the result is re-validated by re-reading `JumpOp`. -/
def OpCode.SetJumpOp (op jump : Nat) : Nat :=
  if !Class.IsJump (OpCode.Class op) || !valid jump jumpMask then InvalidOpCode
  else
    let newOp := (op &&& compl32 jumpMask) ||| jump
    if OpCode.JumpOp newOp == InvalidJumpOp then InvalidOpCode
    else newOp

/-- Go: `func LoadImmOp(size Size) OpCode`.  Modelled from the spec:
the constructor produces class `Ld` with `Mode = Immediate` and the given
size (builder style). -/
def LoadImmOp (size : Nat) : Nat :=
  OpCode.SetSize (OpCode.SetMode LdClass ImmMode) size

/-- Go: `func (op OpCode) IsDWordLoad() bool` -/
def OpCode.IsDWordLoad (op : Nat) : Bool :=
  op == LoadImmOp DWord

/-- Go: `func (op OpCode) rawInstructions() int` — number of BPF
instructions required to encode this opcode. -/
def OpCode.rawInstructions (op : Nat) : Nat :=
  if OpCode.IsDWordLoad op then 2 else 1

/-- Bool test: `needle` occurs at the head of `hay`. -/
def leadsWith : List Char → List Char → Bool
  | [], _ => true
  | _ :: _, [] => false
  | a :: as, b :: bs => a == b && leadsWith as bs

/-- Bool test: `needle` occurs contiguously anywhere inside `hay`. -/
def containsSeq (needle : List Char) : List Char → Bool
  | [] => needle.isEmpty
  | b :: bs => leadsWith needle (b :: bs) || containsSeq needle bs

/-- Go: `strings.TrimSuffix(s, suffix)` — drops `suffix` from the end of
`s` when present. -/
def trimSuffix (s suffix : String) : String :=
  if leadsWith suffix.data.reverse s.data.reverse then
    String.mk (s.data.take (s.data.length - suffix.data.length))
  else s

/-- Generated `Class.String` (stringer over the eight class constants,
per the `go:generate` line in `asm/opcode.go`). -/
def classString (cls : Nat) : String :=
  if cls == LdClass then "LdClass"
  else if cls == LdXClass then "LdXClass"
  else if cls == StClass then "StClass"
  else if cls == StXClass then "StXClass"
  else if cls == ALUClass then "ALUClass"
  else if cls == JumpClass then "JumpClass"
  else if cls == Jump32Class then "Jump32Class"
  else if cls == ALU64Class then "ALU64Class"
  else "Class(" ++ toString cls ++ ")"

/-- Modelled from the spec: `Mode.String` — mode names carry the suffix
`"Mode"`, which the renderer strips; scenario 5 shows the `0xc0` mode
rendering as `"Atomic"`. -/
def modeString (m : Nat) : String :=
  if m == ImmMode then "ImmMode"
  else if m == AbsMode then "AbsMode"
  else if m == IndMode then "IndMode"
  else if m == MemMode then "MemMode"
  else if m == MemSXMode then "MemSXMode"
  else if m == AtomicMode then "AtomicMode"
  else if m == InvalidMode then "InvalidMode"
  else "Mode(" ++ toString m ++ ")"

/-- Modelled from the spec: `AtomicOp.String` — plain flavors carry the
suffix `"Atomic"` (stripped by the renderer); fetch/exchange flavors do
not. -/
def atomicString (x : Nat) : String :=
  if x == AddAtomic then "AddAtomic"
  else if x == FetchAdd then "FetchAdd"
  else if x == OrAtomic then "OrAtomic"
  else if x == FetchOr then "FetchOr"
  else if x == AndAtomic then "AndAtomic"
  else if x == FetchAnd then "FetchAnd"
  else if x == XorAtomic then "XorAtomic"
  else if x == FetchXor then "FetchXor"
  else if x == XChg then "XChg"
  else if x == CmpXChg then "CmpXChg"
  else if x == InvalidAtomic then "InvalidAtomic"
  else "AtomicOp(" ++ toString x ++ ")"

/-- Modelled from the spec: `ALUOp.String`. -/
def aluString (a : Nat) : String :=
  if a == ALU.Add then "Add"
  else if a == ALU.Sub then "Sub"
  else if a == ALU.Mul then "Mul"
  else if a == ALU.Div then "Div"
  else if a == ALU.Or then "Or"
  else if a == ALU.And then "And"
  else if a == ALU.LSh then "LSh"
  else if a == ALU.RSh then "RSh"
  else if a == ALU.Neg then "Neg"
  else if a == ALU.Mod then "Mod"
  else if a == ALU.Xor then "Xor"
  else if a == ALU.Mov then "Mov"
  else if a == ALU.ArSh then "ArSh"
  else if a == ALU.Swap then "Swap"
  else if a == InvalidALUOp then "InvalidALUOp"
  else "ALUOp(" ++ toString a ++ ")"

/-- Modelled from the spec: `JumpOp.String`. -/
def jumpString (j : Nat) : String :=
  if j == Ja then "Ja"
  else if j == JEq then "JEq"
  else if j == JGT then "JGT"
  else if j == JGE then "JGE"
  else if j == JSet then "JSet"
  else if j == JNE then "JNE"
  else if j == JSGT then "JSGT"
  else if j == JSGE then "JSGE"
  else if j == Call then "Call"
  else if j == Exit then "Exit"
  else if j == JLT then "JLT"
  else if j == JLE then "JLE"
  else if j == JSLT then "JSLT"
  else if j == JSLE then "JSLE"
  else if j == InvalidJumpOp then "InvalidJumpOp"
  else "JumpOp(" ++ toString j ++ ")"

/-- Modelled from the spec: `Source.String` — names carry the suffix
`"Source"` (stripped by the renderer); scenarios 3, 4 and 6 of the spec
show the immediate source rendering as the empty string and the register
source rendering as `"X"`. -/
def sourceString (s : Nat) : String :=
  if s == ImmSource then "Source"
  else if s == RegSource then "XSource"
  else if s == InvalidSource then "InvalidSource"
  else "Source(" ++ toString s ++ ")"

/-- Modelled from the spec: `Endianness.String` — scenario 6 shows the
big-endian swap rendering as `"BE"`. -/
def endianString (e : Nat) : String :=
  if e == LittleEndian then "LE"
  else if e == BigEndian then "BE"
  else if e == InvalidEndian then "InvalidEndian"
  else "Endianness(" ++ toString e ++ ")"

/-- Go's `fmt.Sprintf("%#x", uint8(op))` for the renderer's default
branch (unreachable, see `claim10_class_total`). -/
def hexByte (n : Nat) : String :=
  let digits := "0123456789abcdef".data
  let lo := n &&& 0xff
  if lo == 0 then "0"
  else if lo < 16 then String.mk ('0' :: 'x' :: [digits.getD (lo % 16) '0'])
  else String.mk ('0' :: 'x' :: [digits.getD (lo / 16) '0', digits.getD (lo % 16) '0'])

/-- Go: `func (op OpCode) String() string` — the mnemonic renderer. -/
def OpCode.render (op : Nat) : String :=
  let cls := OpCode.Class op
  if Class.isLoadOrStore cls then
    trimSuffix (classString cls) "Class"
      ++ trimSuffix (modeString (OpCode.Mode op)) "Mode"
      ++ (if OpCode.AtomicOp op != InvalidAtomic then
            trimSuffix (atomicString (OpCode.AtomicOp op)) "Atomic"
          else "")
      ++ (if OpCode.Size op == DWord then "DW"
          else if OpCode.Size op == Word then "W"
          else if OpCode.Size op == Half then "H"
          else if OpCode.Size op == Byte then "B"
          else "")
  else if Class.IsALU cls then
    (if OpCode.ALUOp op == ALU.Swap && cls == ALU64Class then "B" else "")
      ++ aluString (OpCode.ALUOp op)
      ++ (if OpCode.ALUOp op == ALU.Swap then
            (if cls == ALUClass then endianString (OpCode.Endianness op) else "")
          else
            trimSuffix (sourceString (OpCode.Source op)) "Source"
              ++ (if cls == ALUClass then "32" else ""))
  else if Class.IsJump cls then
    jumpString (OpCode.JumpOp op)
      ++ (if cls == Jump32Class then "32" else "")
      ++ (if OpCode.JumpOp op != Exit && OpCode.JumpOp op != Call
             && OpCode.JumpOp op != Ja then
            trimSuffix (sourceString (OpCode.Source op)) "Source"
          else "")
  else "OpCode(" ++ hexByte op ++ ")"

/-- The addressing modes with a defined name. -/
def namedMode (m : Nat) : Bool :=
  m == ImmMode || m == AbsMode || m == IndMode || m == MemMode
    || m == MemSXMode || m == AtomicMode

/-- The ALU operations with a defined name. -/
def namedALUOp (a : Nat) : Bool :=
  a == ALU.Add || a == ALU.Sub || a == ALU.Mul || a == ALU.Div
    || a == ALU.Or || a == ALU.And || a == ALU.LSh || a == ALU.RSh
    || a == ALU.Neg || a == ALU.Mod || a == ALU.Xor || a == ALU.Mov
    || a == ALU.ArSh || a == ALU.Swap

/-- The jump operations with a defined name. -/
def namedJumpOp (j : Nat) : Bool :=
  j == Ja || j == JEq || j == JGT || j == JGE || j == JSet || j == JNE
    || j == JSGT || j == JSGE || j == Call || j == Exit || j == JLT
    || j == JLE || j == JSLT || j == JSLE

/-- The atomic operations with a defined name. -/
def namedAtomicOp (x : Nat) : Bool :=
  x == AddAtomic || x == FetchAdd || x == OrAtomic || x == FetchOr
    || x == AndAtomic || x == FetchAnd || x == XorAtomic || x == FetchXor
    || x == XChg || x == CmpXChg

/-- Modelled from the spec: the *Valid* state of an OpCode — the value is
confined to the kernel-visible low byte (plus the atomic-operation byte
for `StX`/`AtomicMode` opcodes) and every facet read from it carries a
defined name consistent with its class. -/
def validOpCode (op : Nat) : Bool :=
  let cls := OpCode.Class op
  if Class.isLoadOrStore cls then
    if cls == StXClass && (op &&& modeMask) == AtomicMode then
      decide (op < 0x10000) && namedAtomicOp (op &&& atomicMask)
    else
      decide (op < 0x100) && namedMode (op &&& modeMask)
  else if Class.IsALU cls then
    decide (op < 0x100) && namedALUOp (op &&& aluMask)
  else
    decide (op < 0x100) && namedJumpOp (op &&& jumpMask)
      && OpCode.JumpOp op != InvalidJumpOp

/-- No rendered mnemonic fragment: `s` avoids the substrings `"Class"`,
`"Mode"` and `"Source"`. -/
def noBadSub (s : String) : Bool :=
  !containsSeq "Class".data s.data && !containsSeq "Mode".data s.data
    && !containsSeq "Source".data s.data

/-- `noBadSub` plus absence of `"Atomic"`: the substring set named by the
spec's mnemonic-determinism law. -/
def noSpecSub (s : String) : Bool :=
  noBadSub s && !containsSeq "Atomic".data s.data

end Asm

namespace Asm

theorem testBit_allOnes {i : Nat} : Nat.testBit 0xffffffff i = decide (i < 32) := by
  have h : (0xffffffff : Nat) = 2 ^ 32 - 1 := by norm_num
  rw [h, Nat.testBit_two_pow_sub_one]

theorem testBit_high {x i : Nat} (hx : x < 2 ^ 32) (hi : 32 ≤ i) :
    x.testBit i = false :=
  Nat.testBit_lt_two_pow (lt_of_lt_of_le hx (Nat.pow_le_pow_right (by norm_num) hi))

theorem land_compl32_self {x m : Nat} (hm : m < 2 ^ 32) :
    (x &&& m) &&& compl32 m = 0 := by
  apply Nat.eq_of_testBit_eq
  intro i
  simp only [Nat.testBit_and, compl32, Nat.testBit_xor, Nat.zero_testBit]
  by_cases hi : i < 32
  · rw [testBit_allOnes]
    simp only [hi, decide_True]
    cases m.testBit i <;> cases x.testBit i <;> rfl
  · rw [testBit_high hm (le_of_not_lt hi)]
    cases x.testBit i <;> rfl

theorem masked_or_unmasked {op m : Nat} (hop : op < 2 ^ 32) (hm : m < 2 ^ 32) :
    (op &&& compl32 m) ||| (op &&& m) = op := by
  apply Nat.eq_of_testBit_eq
  intro i
  simp only [Nat.testBit_or, Nat.testBit_and, compl32, Nat.testBit_xor]
  by_cases hi : i < 32
  · rw [testBit_allOnes]
    simp only [hi, decide_True]
    cases m.testBit i <;> cases op.testBit i <;> rfl
  · rw [testBit_allOnes]
    simp only [hi, decide_False]
    rw [testBit_high hop (le_of_not_lt hi), testBit_high hm (le_of_not_lt hi)]
    rfl

theorem set_field_and (op v m c : Nat) :
    ((op &&& compl32 m) ||| v) &&& c = (op &&& (compl32 m &&& c)) ||| (v &&& c) := by
  rw [Nat.and_distrib_right, Nat.and_assoc]

theorem valid_masked {op m : Nat} (h : m &&& compl32 m = 0) :
    valid (op &&& m) m = true := by
  have : (op &&& m) &&& compl32 m = 0 := by
    rw [Nat.and_assoc, h, Nat.and_zero]
  simp [valid, this]

theorem class_preserved {op v m : Nat} (h7 : compl32 m &&& classMask = classMask)
    (hv : v &&& compl32 m = 0) :
    OpCode.Class ((op &&& compl32 m) ||| v) = OpCode.Class op := by
  unfold OpCode.Class
  rw [set_field_and, h7]
  have hz : v &&& classMask = 0 := by
    calc v &&& classMask = v &&& (compl32 m &&& classMask) := by rw [h7]
    _ = (v &&& compl32 m) &&& classMask := by rw [Nat.and_assoc]
    _ = 0 := by rw [hv, Nat.zero_and]
  rw [hz, Nat.or_zero]

/-- C2: `rawInstructions` returns 2 exactly on `LoadImmOp DWord` (the
64-bit immediate load) and 1 on every other opcode. -/
theorem claim2_rawInstructions (op : Nat) :
    (OpCode.rawInstructions op = 2 ↔ op = LoadImmOp DWord) ∧
    (op ≠ LoadImmOp DWord → OpCode.rawInstructions op = 1) := by
  unfold OpCode.rawInstructions OpCode.IsDWordLoad
  by_cases h : op = LoadImmOp DWord
  · subst h; simp
  · simp [h]

/-- Witness for C2 at concrete opcodes: the 64-bit immediate load `0x18`
takes two instruction slots, the word-sized `LdXMemW` opcode `0x61` one. -/
theorem claim2_rawInstructions_witness :
    OpCode.rawInstructions 0x18 = 2 ∧ OpCode.rawInstructions 0x61 = 1 :=
  ⟨(claim2_rawInstructions 0x18).1.mpr (by decide),
   (claim2_rawInstructions 0x61).2 (by decide)⟩

/-- C9: the sentinel `InvalidOpCode = 0xffff` is not absorbing: its low
three bits decode to `ALU64Class`, its `ALUOp` reads as a value other
than `InvalidALUOp`, and `SetALUOp`/`SetSource` on it succeed, producing
values that are neither `InvalidOpCode` nor confined to the low byte nor
in the Valid state. -/
theorem claim9_invalid_not_absorbing :
    OpCode.Class InvalidOpCode = ALU64Class ∧
    OpCode.ALUOp InvalidOpCode ≠ InvalidALUOp ∧
    OpCode.SetALUOp InvalidOpCode ALU.Add ≠ InvalidOpCode ∧
    0xff < OpCode.SetALUOp InvalidOpCode ALU.Add ∧
    validOpCode (OpCode.SetALUOp InvalidOpCode ALU.Add) = false ∧
    OpCode.SetSource InvalidOpCode ImmSource ≠ InvalidOpCode ∧
    0xff < OpCode.SetSource InvalidOpCode ImmSource ∧
    validOpCode (OpCode.SetSource InvalidOpCode ImmSource) = false := by
  decide

/-- Counterexample to C1: on `Jump32Class`, `Ja` is not rejected.  The
opcode `0x06` (class `Jump32Class`, high nibble `Ja`) has
`JumpOp ≠ InvalidJumpOp`, and `SetJumpOp` with `Ja` succeeds on it. -/
theorem claim1_counterexample :
    OpCode.Class 0x06 = Jump32Class ∧
    (0x06 : Nat) &&& jumpMask = Ja ∧
    validOpCode 0x06 = true ∧
    OpCode.JumpOp 0x06 = Ja ∧
    OpCode.JumpOp 0x06 ≠ InvalidJumpOp ∧
    OpCode.SetJumpOp 0x06 Ja = 0x06 ∧
    OpCode.SetJumpOp 0x06 Ja ≠ InvalidOpCode := by
  decide

/-- C1 amended: on `Jump32Class`, only `Exit` and `Call` are invalid —
`JumpOp` reads `InvalidJumpOp` when the high nibble encodes `Exit` or
`Call`, and `SetJumpOp` rejects `Exit` and `Call` (while `Ja` remains
legal, see the counterexample). -/
theorem claim1_amended (op : Nat) (h : OpCode.Class op = Jump32Class) :
    (op &&& jumpMask = Exit ∨ op &&& jumpMask = Call →
      OpCode.JumpOp op = InvalidJumpOp) ∧
    OpCode.SetJumpOp op Exit = InvalidOpCode ∧
    OpCode.SetJumpOp op Call = InvalidOpCode := by
  have hij : Class.IsJump Jump32Class = true := by decide
  have hset : ∀ j : Nat, j &&& compl32 jumpMask = 0 → j &&& jumpMask = j →
      (j == Exit || j == Call) = true →
      OpCode.SetJumpOp op j = InvalidOpCode := by
    intro j hv hjm hec
    have hc : OpCode.Class ((op &&& compl32 jumpMask) ||| j) = Jump32Class :=
      (class_preserved (by decide) hv).trans h
    have hjm' : ((op &&& compl32 jumpMask) ||| j) &&& jumpMask = j := by
      rw [set_field_and]
      have e1 : compl32 jumpMask &&& jumpMask = 0 := by decide
      rw [e1, Nat.and_zero, Nat.zero_or, hjm]
    have hvj : valid j jumpMask = true := by simp [valid, hv]
    have hnew : OpCode.JumpOp ((op &&& compl32 jumpMask) ||| j) = InvalidJumpOp := by
      simp [OpCode.JumpOp, hc, hij, hjm', hec]
    simp [OpCode.SetJumpOp, h, hij, hvj, hnew]
  refine ⟨fun hj => ?_, ?_, ?_⟩
  · rcases hj with hj | hj <;>
      simp [OpCode.JumpOp, h, hij, hj, Exit, Call, Jump32Class]
  · exact hset Exit (by decide) (by decide) (by decide)
  · exact hset Call (by decide) (by decide) (by decide)

/-- Witness for C1 amended: `0x96` is `Exit` packed on `Jump32Class`, and
its `JumpOp` reads `InvalidJumpOp`; setting `Exit` on the `Jump32Class`
opcode `0x16` is rejected. -/
theorem claim1_amended_witness :
    OpCode.JumpOp 0x96 = InvalidJumpOp ∧ OpCode.SetJumpOp 0x16 Exit = InvalidOpCode :=
  ⟨(claim1_amended 0x96 (by decide)).1 (Or.inl (by decide)),
   (claim1_amended 0x16 (by decide)).2.1⟩

/-- C6: `Source` and `Endianness` share bit 3 and are mutually exclusive:
a Swap opcode reads `InvalidSource` even though its class admits the
Source facet, any non-Swap opcode reads `InvalidEndian`, and the two
facets are never both readable. -/
theorem claim6_source_endianness (op : Nat) :
    (OpCode.ALUOp op = ALU.Swap →
      Class.isJumpOrALU (OpCode.Class op) = true ∧ OpCode.Source op = InvalidSource) ∧
    (OpCode.ALUOp op ≠ ALU.Swap → OpCode.Endianness op = InvalidEndian) ∧
    ¬(OpCode.Source op ≠ InvalidSource ∧ OpCode.Endianness op ≠ InvalidEndian) := by
  have halu : OpCode.ALUOp op = ALU.Swap → Class.isJumpOrALU (OpCode.Class op) = true := by
    intro hs
    cases hA : Class.IsALU (OpCode.Class op) with
    | false => simp [OpCode.ALUOp, hA, InvalidALUOp, ALU.Swap] at hs
    | true => simp [Class.isJumpOrALU, hA]
  refine ⟨fun hs => ⟨halu hs, ?_⟩, fun hs => ?_, fun ⟨hsrc, hend⟩ => ?_⟩
  · simp [OpCode.Source, hs]
  · simp [OpCode.Endianness, hs]
  · by_cases hs : OpCode.ALUOp op = ALU.Swap
    · exact hsrc (by simp [OpCode.Source, hs])
    · exact hend (by simp [OpCode.Endianness, hs])

/-- Witness for C6: the 32-bit Swap opcode `0xd4` reads `InvalidSource`;
the ALU Add opcode `0x04` reads `InvalidEndian`. -/
theorem claim6_source_endianness_witness :
    OpCode.Source 0xd4 = InvalidSource ∧ OpCode.Endianness 0x04 = InvalidEndian :=
  ⟨((claim6_source_endianness 0xd4).1 (by decide)).2,
   (claim6_source_endianness 0x04).2.1 (by decide)⟩

/-- C10: the 3-bit class of any OpCode decodes to one of the eight
defined variants, and exactly one of `isLoadOrStore`, `IsALU`, `IsJump`
holds for it — so the renderer's default branch (`OpCode(0x…)`), guarded
by all three being false, can never be taken. -/
theorem claim10_class_total (op : Nat) :
    (OpCode.Class op = LdClass ∨ OpCode.Class op = LdXClass ∨
     OpCode.Class op = StClass ∨ OpCode.Class op = StXClass ∨
     OpCode.Class op = ALUClass ∨ OpCode.Class op = JumpClass ∨
     OpCode.Class op = Jump32Class ∨ OpCode.Class op = ALU64Class) ∧
    (Class.isLoadOrStore (OpCode.Class op) || Class.IsALU (OpCode.Class op) ||
      Class.IsJump (OpCode.Class op)) = true ∧
    (Class.isLoadOrStore (OpCode.Class op) && Class.IsALU (OpCode.Class op)) = false ∧
    (Class.isLoadOrStore (OpCode.Class op) && Class.IsJump (OpCode.Class op)) = false ∧
    (Class.IsALU (OpCode.Class op) && Class.IsJump (OpCode.Class op)) = false := by
  have h : OpCode.Class op ≤ 7 := Nat.and_le_right
  obtain ⟨c, hc⟩ : ∃ c, OpCode.Class op = c := ⟨_, rfl⟩
  rw [hc] at h ⊢
  interval_cases c <;> decide

/-- C4: a facet not admitted by the opcode's class reads as its Invalid
sentinel, and the matching setter returns `InvalidOpCode` for every
argument value. -/
theorem claim4_invalid_propagation (op v : Nat) :
    (Class.isLoadOrStore (OpCode.Class op) = false →
      OpCode.Mode op = InvalidMode ∧ OpCode.Size op = InvalidSize ∧
      OpCode.SetMode op v = InvalidOpCode ∧ OpCode.SetSize op v = InvalidOpCode) ∧
    (Class.isJumpOrALU (OpCode.Class op) = false →
      OpCode.Source op = InvalidSource ∧ OpCode.SetSource op v = InvalidOpCode) ∧
    (Class.IsALU (OpCode.Class op) = false →
      OpCode.ALUOp op = InvalidALUOp ∧ OpCode.SetALUOp op v = InvalidOpCode) ∧
    (Class.IsJump (OpCode.Class op) = false →
      OpCode.JumpOp op = InvalidJumpOp ∧ OpCode.SetJumpOp op v = InvalidOpCode) ∧
    (¬(OpCode.Class op = StXClass ∧ OpCode.Mode op = AtomicMode) →
      OpCode.AtomicOp op = InvalidAtomic ∧ OpCode.SetAtomicOp op v = InvalidOpCode) := by
  refine ⟨fun h => ?_, fun h => ?_, fun h => ?_, fun h => ?_, fun h => ?_⟩
  · exact ⟨by simp [OpCode.Mode, h], by simp [OpCode.Size, h],
      by simp [OpCode.SetMode, h], by simp [OpCode.SetSize, h]⟩
  · exact ⟨by simp [OpCode.Source, h], by simp [OpCode.SetSource, h]⟩
  · exact ⟨by simp [OpCode.ALUOp, h], by simp [OpCode.SetALUOp, h]⟩
  · exact ⟨by simp [OpCode.JumpOp, h], by simp [OpCode.SetJumpOp, h]⟩
  · have hcond : (OpCode.Class op != StXClass || OpCode.Mode op != AtomicMode) = true := by
      simp only [Bool.or_eq_true, bne_iff_ne, ne_eq]
      exact not_and_or.mp h
    exact ⟨by simp [OpCode.AtomicOp, hcond], by simp [OpCode.SetAtomicOp, hcond]⟩

/-- Witness for C4: the ALU opcode `0x04` admits neither load/store nor
jump facets, so its `Mode` and `JumpOp` read as sentinels and `SetMode`
and `SetJumpOp` reject it; the load opcode `0x18` rejects `SetAtomicOp`. -/
theorem claim4_invalid_propagation_witness :
    (OpCode.Mode 0x04 = InvalidMode ∧ OpCode.Size 0x04 = InvalidSize ∧
      OpCode.SetMode 0x04 MemMode = InvalidOpCode ∧
      OpCode.SetSize 0x04 Word = InvalidOpCode) ∧
    (OpCode.JumpOp 0x04 = InvalidJumpOp ∧ OpCode.SetJumpOp 0x04 JEq = InvalidOpCode) ∧
    (OpCode.AtomicOp 0x18 = InvalidAtomic ∧ OpCode.SetAtomicOp 0x18 XChg = InvalidOpCode) :=
  ⟨⟨((claim4_invalid_propagation 0x04 MemMode).1 (by decide)).1,
    ((claim4_invalid_propagation 0x04 MemMode).1 (by decide)).2.1,
    ((claim4_invalid_propagation 0x04 MemMode).1 (by decide)).2.2.1,
    ((claim4_invalid_propagation 0x04 Word).1 (by decide)).2.2.2⟩,
   (claim4_invalid_propagation 0x04 JEq).2.2.2.1 (by decide),
   (claim4_invalid_propagation 0x18 XChg).2.2.2.2 (by decide)⟩

/-- C5: every setter either fails with `InvalidOpCode` or preserves the
3-bit class of its receiver. -/
theorem claim5_class_inertia (op v : Nat) :
    (OpCode.SetMode op v ≠ InvalidOpCode →
      OpCode.Class (OpCode.SetMode op v) = OpCode.Class op) ∧
    (OpCode.SetSize op v ≠ InvalidOpCode →
      OpCode.Class (OpCode.SetSize op v) = OpCode.Class op) ∧
    (OpCode.SetAtomicOp op v ≠ InvalidOpCode →
      OpCode.Class (OpCode.SetAtomicOp op v) = OpCode.Class op) ∧
    (OpCode.SetSource op v ≠ InvalidOpCode →
      OpCode.Class (OpCode.SetSource op v) = OpCode.Class op) ∧
    (OpCode.SetALUOp op v ≠ InvalidOpCode →
      OpCode.Class (OpCode.SetALUOp op v) = OpCode.Class op) ∧
    (OpCode.SetJumpOp op v ≠ InvalidOpCode →
      OpCode.Class (OpCode.SetJumpOp op v) = OpCode.Class op) := by
  refine ⟨fun h => ?_, fun h => ?_, fun h => ?_, fun h => ?_, fun h => ?_, fun h => ?_⟩
  · cases hg : (!Class.isLoadOrStore (OpCode.Class op) || !valid v modeMask) with
    | true => exact absurd (by simp [OpCode.SetMode, hg]) h
    | false =>
      simp only [Bool.or_eq_false_iff, Bool.not_eq_false'] at hg
      have hv : v &&& compl32 modeMask = 0 := by simpa [valid] using hg.2
      simp only [OpCode.SetMode, hg.1, hg.2, Bool.not_true, Bool.or_self, if_false]
      exact class_preserved (by decide) hv
  · cases hg : (!Class.isLoadOrStore (OpCode.Class op) || !valid v sizeMask) with
    | true => exact absurd (by simp [OpCode.SetSize, hg]) h
    | false =>
      simp only [Bool.or_eq_false_iff, Bool.not_eq_false'] at hg
      have hv : v &&& compl32 sizeMask = 0 := by simpa [valid] using hg.2
      simp only [OpCode.SetSize, hg.1, hg.2, Bool.not_true, Bool.or_self, if_false]
      exact class_preserved (by decide) hv
  · cases hg : (OpCode.Class op != StXClass || OpCode.Mode op != AtomicMode
        || !valid v atomicMask) with
    | true => exact absurd (by simp [OpCode.SetAtomicOp, hg]) h
    | false =>
      simp only [Bool.or_eq_false_iff, Bool.not_eq_false'] at hg
      have hv : v &&& compl32 atomicMask = 0 := by simpa [valid] using hg.2
      simp only [OpCode.SetAtomicOp, hg.1.1, hg.1.2, hg.2, Bool.not_true,
        Bool.or_self, Bool.or_false, if_false]
      exact class_preserved (by decide) hv
  · cases hg : (!Class.isJumpOrALU (OpCode.Class op) || !valid v sourceMask) with
    | true => exact absurd (by simp [OpCode.SetSource, hg]) h
    | false =>
      simp only [Bool.or_eq_false_iff, Bool.not_eq_false'] at hg
      have hv : v &&& compl32 sourceMask = 0 := by simpa [valid] using hg.2
      simp only [OpCode.SetSource, hg.1, hg.2, Bool.not_true, Bool.or_self, if_false]
      exact class_preserved (by decide) hv
  · cases hg : (!Class.IsALU (OpCode.Class op) || !valid v aluMask) with
    | true => exact absurd (by simp [OpCode.SetALUOp, hg]) h
    | false =>
      simp only [Bool.or_eq_false_iff, Bool.not_eq_false'] at hg
      have hv : v &&& compl32 aluMask = 0 := by simpa [valid] using hg.2
      simp only [OpCode.SetALUOp, hg.1, hg.2, Bool.not_true, Bool.or_self, if_false]
      exact class_preserved (by decide) hv
  · cases hg : (!Class.IsJump (OpCode.Class op) || !valid v jumpMask) with
    | true => exact absurd (by simp [OpCode.SetJumpOp, hg]) h
    | false =>
      simp only [Bool.or_eq_false_iff, Bool.not_eq_false'] at hg
      have hv : v &&& compl32 jumpMask = 0 := by simpa [valid] using hg.2
      cases hg2 : (OpCode.JumpOp ((op &&& compl32 jumpMask) ||| v) == InvalidJumpOp) with
      | true => exact absurd (by simp [OpCode.SetJumpOp, hg.1, hg.2, hg2]) h
      | false =>
        simp only [OpCode.SetJumpOp, hg.1, hg.2, hg2, Bool.not_true, Bool.or_self,
          if_false]
        exact class_preserved (by decide) hv

/-- Witness for C5: setting `MemMode` on the load opcode `0x18` succeeds
and leaves the class `LdClass` unchanged. -/
theorem claim5_class_inertia_witness :
    OpCode.SetMode 0x18 MemMode ≠ InvalidOpCode ∧
    OpCode.Class (OpCode.SetMode 0x18 MemMode) = OpCode.Class 0x18 :=
  ⟨by decide, (claim5_class_inertia 0x18 MemMode).1 (by decide)⟩

/-- Counterexample to C3: the 32-bit byte-swap opcode `0xd4` is a valid
ALU-class opcode, so its class admits the Source facet, yet
`SetSource(o, Source(o))` returns `InvalidOpCode` instead of `o`
because `Source(o)` reads the `InvalidSource` sentinel on a Swap
opcode. -/
theorem claim3_counterexample :
    validOpCode 0xd4 = true ∧
    Class.isJumpOrALU (OpCode.Class 0xd4) = true ∧
    OpCode.ALUOp 0xd4 = ALU.Swap ∧
    OpCode.SetSource 0xd4 (OpCode.Source 0xd4) = InvalidOpCode ∧
    (0xd4 : Nat) ≠ InvalidOpCode := by
  decide

/-- C3 amended: for every facet whose getter does not read its Invalid
sentinel, writing the facet's current value back is the identity.  (As
originally stated the law fails exactly where the getter reads the
sentinel even though the class admits the facet — Source on a Swap
opcode, see the counterexample.) -/
theorem claim3_amended (op : Nat) (hop : op < 2 ^ 32) :
    (OpCode.Mode op ≠ InvalidMode → OpCode.SetMode op (OpCode.Mode op) = op) ∧
    (OpCode.Size op ≠ InvalidSize → OpCode.SetSize op (OpCode.Size op) = op) ∧
    (OpCode.Source op ≠ InvalidSource → OpCode.SetSource op (OpCode.Source op) = op) ∧
    (OpCode.ALUOp op ≠ InvalidALUOp → OpCode.SetALUOp op (OpCode.ALUOp op) = op) ∧
    (OpCode.JumpOp op ≠ InvalidJumpOp → OpCode.SetJumpOp op (OpCode.JumpOp op) = op) ∧
    (OpCode.AtomicOp op ≠ InvalidAtomic →
      OpCode.SetAtomicOp op (OpCode.AtomicOp op) = op) := by
  refine ⟨fun h => ?_, fun h => ?_, fun h => ?_, fun h => ?_, fun h => ?_, fun h => ?_⟩
  · cases hls : Class.isLoadOrStore (OpCode.Class op) with
    | false => exact absurd (by simp [OpCode.Mode, hls]) h
    | true =>
      have hget : OpCode.Mode op = op &&& modeMask := by simp [OpCode.Mode, hls]
      rw [hget]
      have hv : valid (op &&& modeMask) modeMask = true := valid_masked (by decide)
      simp only [OpCode.SetMode, hls, hv, Bool.not_true, Bool.or_self, if_false]
      exact masked_or_unmasked hop (by decide)
  · cases hls : Class.isLoadOrStore (OpCode.Class op) with
    | false => exact absurd (by simp [OpCode.Size, hls]) h
    | true =>
      have hget : OpCode.Size op = op &&& sizeMask := by simp [OpCode.Size, hls]
      rw [hget]
      have hv : valid (op &&& sizeMask) sizeMask = true := valid_masked (by decide)
      simp only [OpCode.SetSize, hls, hv, Bool.not_true, Bool.or_self, if_false]
      exact masked_or_unmasked hop (by decide)
  · cases hc : (!Class.isJumpOrALU (OpCode.Class op) || OpCode.ALUOp op == ALU.Swap) with
    | true => exact absurd (by simp [OpCode.Source, hc]) h
    | false =>
      simp only [Bool.or_eq_false_iff, Bool.not_eq_false'] at hc
      have hget : OpCode.Source op = op &&& sourceMask := by
        simp [OpCode.Source, hc.1, hc.2]
      rw [hget]
      have hv : valid (op &&& sourceMask) sourceMask = true := valid_masked (by decide)
      simp only [OpCode.SetSource, hc.1, hv, Bool.not_true, Bool.or_self, if_false]
      exact masked_or_unmasked hop (by decide)
  · cases ha : Class.IsALU (OpCode.Class op) with
    | false => exact absurd (by simp [OpCode.ALUOp, ha]) h
    | true =>
      have hget : OpCode.ALUOp op = op &&& aluMask := by simp [OpCode.ALUOp, ha]
      rw [hget]
      have hv : valid (op &&& aluMask) aluMask = true := valid_masked (by decide)
      simp only [OpCode.SetALUOp, ha, hv, Bool.not_true, Bool.or_self, if_false]
      exact masked_or_unmasked hop (by decide)
  · cases hj : Class.IsJump (OpCode.Class op) with
    | false => exact absurd (by simp [OpCode.JumpOp, hj]) h
    | true =>
      cases h32 : (OpCode.Class op == Jump32Class
          && (op &&& jumpMask == Exit || op &&& jumpMask == Call)) with
      | true => exact absurd (by simp [OpCode.JumpOp, hj, h32]) h
      | false =>
        have hget : OpCode.JumpOp op = op &&& jumpMask := by
          simp [OpCode.JumpOp, hj, h32]
        have hv : valid (op &&& jumpMask) jumpMask = true := valid_masked (by decide)
        have hpack : (op &&& compl32 jumpMask) ||| (op &&& jumpMask) = op :=
          masked_or_unmasked hop (by decide)
        have hne : (op &&& jumpMask == InvalidJumpOp) = false := by
          simp only [beq_eq_false_iff_ne, ne_eq]
          have hle : op &&& jumpMask ≤ jumpMask := Nat.and_le_right
          intro hcontra
          rw [hcontra] at hle
          norm_num [jumpMask, InvalidJumpOp] at hle
        rw [hget]
        simp only [OpCode.SetJumpOp, hj, hv, Bool.not_true, Bool.or_self, if_false,
          hpack, hget, hne]
        simp
  · cases hc : (OpCode.Class op != StXClass || OpCode.Mode op != AtomicMode) with
    | true => exact absurd (by simp [OpCode.AtomicOp, hc]) h
    | false =>
      simp only [Bool.or_eq_false_iff, bne_eq_false_iff_eq] at hc
      have hget : OpCode.AtomicOp op = op &&& atomicMask := by
        simp [OpCode.AtomicOp, hc.1, hc.2]
      rw [hget]
      have hv : valid (op &&& atomicMask) atomicMask = true := valid_masked (by decide)
      simp only [OpCode.SetAtomicOp, hc.1, hc.2, hv, Bool.not_true, bne_self_eq_false,
        Bool.or_self, Bool.or_false, if_false]
      exact masked_or_unmasked hop (by decide)

/-- Witness for C3 amended: writing back the current mode of the
`LdXMemW` opcode `0x61` and the current atomic operation of the
`StXAtomicCmpXChgDW` opcode `0xf1db` are identities. -/
theorem claim3_amended_witness :
    OpCode.SetMode 0x61 (OpCode.Mode 0x61) = 0x61 ∧
    OpCode.SetAtomicOp 0xf1db (OpCode.AtomicOp 0xf1db) = 0xf1db :=
  ⟨(claim3_amended 0x61 (by norm_num)).1 (by decide),
   (claim3_amended 0xf1db (by norm_num)).2.2.2.2.2 (by decide)⟩

theorem valid_ff_iff {op : Nat} (hop : op < 2 ^ 32) :
    valid op 0xff = true ↔ op < 0x100 := by
  constructor
  · intro h
    have h0 : op &&& compl32 0xff = 0 := by simpa [valid] using h
    have hsplit := masked_or_unmasked hop (show (0xff : Nat) < 2 ^ 32 by norm_num)
    rw [h0, Nat.zero_or] at hsplit
    have hmod : op &&& 0xff = op % 2 ^ 8 := by
      have e : (0xff : Nat) = 2 ^ 8 - 1 := by norm_num
      rw [e, Nat.and_pow_two_sub_one_eq_mod]
    have : op % 2 ^ 8 = op := by rw [← hmod]; exact hsplit
    have hlt : op % 2 ^ 8 < 2 ^ 8 := Nat.mod_lt _ (by norm_num)
    omega
  · intro h
    have h0 : op &&& compl32 0xff = 0 := by
      apply Nat.eq_of_testBit_eq
      intro i
      simp only [Nat.testBit_and, Nat.zero_testBit]
      by_cases hi : i < 8
      · have hc : Nat.testBit (compl32 0xff) i = false := by
          interval_cases i <;> decide
        rw [hc]
        cases op.testBit i <;> rfl
      · have h28 : (0x100 : Nat) ≤ 2 ^ i := by
          calc (0x100 : Nat) = 2 ^ 8 := by norm_num
          _ ≤ 2 ^ i := Nat.pow_le_pow_right (by norm_num) (le_of_not_lt hi)
        rw [Nat.testBit_lt_two_pow (lt_of_lt_of_le h h28)]
        rfl
    simp [valid, h0]

/-- C7: `bpfOpCode` succeeds exactly when the opcode is confined to the
kernel-visible low byte, in which case it returns that byte unchanged;
any value with bits above the low byte — in particular the sentinel
`InvalidOpCode = 0xffff` — makes it fail.  It is the model's only
fallible operation: every other accessor or mutator returns a sentinel
value instead (they are total functions into `Nat` in this file). -/
theorem claim7_bpfOpCode (op : Nat) (hop : op < 2 ^ 32) :
    ((OpCode.bpfOpCode op).isSome = true ↔ op < 0x100) ∧
    (op < 0x100 → OpCode.bpfOpCode op = some op) ∧
    (0x100 ≤ op → OpCode.bpfOpCode op = none) ∧
    OpCode.bpfOpCode InvalidOpCode = none := by
  have hmod : op &&& 0xff = op % 2 ^ 8 := by
    have e : (0xff : Nat) = 2 ^ 8 - 1 := by norm_num
    rw [e, Nat.and_pow_two_sub_one_eq_mod]
  refine ⟨?_, fun h => ?_, fun h => ?_, by decide⟩
  · constructor
    · intro h
      cases hv : valid op 0xff with
      | false => simp [OpCode.bpfOpCode, hv] at h
      | true => exact (valid_ff_iff hop).mp hv
    · intro h
      have hv : valid op 0xff = true := (valid_ff_iff hop).mpr h
      simp [OpCode.bpfOpCode, hv]
  · have hv : valid op 0xff = true := (valid_ff_iff hop).mpr h
    have : op &&& 0xff = op := by rw [hmod]; exact Nat.mod_eq_of_lt h
    simp [OpCode.bpfOpCode, hv, this]
  · have hv : valid op 0xff = false := by
      cases hv : valid op 0xff with
      | false => rfl
      | true =>
        have := (valid_ff_iff hop).mp hv
        omega
    simp [OpCode.bpfOpCode, hv]

/-- Witness for C7: the low-byte opcode `0x18` serializes to itself;
`0xf1db` (an atomic opcode, whose atomic flavor lives above the low
byte) and the sentinel `0xffff` fail. -/
theorem claim7_bpfOpCode_witness :
    OpCode.bpfOpCode 0x18 = some 0x18 ∧ OpCode.bpfOpCode 0xf1db = none :=
  ⟨(claim7_bpfOpCode 0x18 (by norm_num)).2.1 (by norm_num),
   (claim7_bpfOpCode 0xf1db (by norm_num)).2.2.1 (by norm_num)⟩

theorem render_lowbyte_ok : ∀ lo, lo < 0x100 → validOpCode lo = true →
    noBadSub (OpCode.render lo) = true := by decide

theorem lowbyte_atomic_cases : ∀ l, l < 0x100 → l &&& classMask = StXClass →
    l &&& modeMask = AtomicMode →
    (l = 0xc3 ∨ l = 0xcb ∨ l = 0xd3 ∨ l = 0xdb) := by decide

theorem split16 {op : Nat} (h : op < 0x10000) :
    (op &&& 0xff00) ||| (op &&& 0xff) = op := by
  rw [← Nat.and_or_distrib_left]
  have e : (0xff00 ||| 0xff : Nat) = 2 ^ 16 - 1 := by decide
  rw [e, Nat.and_pow_two_sub_one_eq_mod]
  exact Nat.mod_eq_of_lt h

theorem atomic_render_ok (a l : Nat) (ha : namedAtomicOp a = true)
    (hl : l = 0xc3 ∨ l = 0xcb ∨ l = 0xd3 ∨ l = 0xdb) :
    noBadSub (OpCode.render (a ||| l)) = true := by
  simp only [namedAtomicOp, Bool.or_eq_true, beq_iff_eq] at ha
  rcases hl with rfl | rfl | rfl | rfl <;>
    rcases ha with ((((((((rfl | rfl) | rfl) | rfl) | rfl) | rfl) | rfl) | rfl) | rfl) | rfl <;>
    decide

/-- Counterexample to C8: the valid atomic store opcode `0xdb`
(`StX`, `AtomicMode`, `DWord`, atomic flavor `AddAtomic`) renders as
`"StXAtomicAddDW"`, which contains the substring `"Atomic"`. -/
theorem claim8_counterexample :
    validOpCode 0xdb = true ∧
    OpCode.render 0xdb = "StXAtomicAddDW" ∧
    containsSeq "Atomic".data (OpCode.render 0xdb).data = true ∧
    noSpecSub (OpCode.render 0xdb) = false := by
  refine ⟨by decide, rfl, by decide, by decide⟩

/-- C8 amended: `render` is a pure function of the opcode value alone
(it is a Lean function of `op` by construction), and on every opcode in
the Valid state its output contains none of the substrings `"Class"`,
`"Mode"`, `"Source"`.  (The substring `"Atomic"` had to be dropped from
the original list: a load/store opcode whose mode bits are `0xc0`
renders that mode as `"Atomic"`, see the counterexample.) -/
theorem claim8_amended (op : Nat) (h : validOpCode op = true) :
    noBadSub (OpCode.render op) = true := by
  have h0 := h
  simp only [validOpCode] at h
  split at h
  next hls =>
    split at h
    next hatom =>
      simp only [Bool.and_eq_true, decide_eq_true_eq, beq_iff_eq] at h hatom
      obtain ⟨hlt, hnamed⟩ := h
      obtain ⟨hstx, hmode⟩ := hatom
      unfold OpCode.Class at hstx
      have hl7 : (op &&& 0xff) &&& classMask = StXClass := by
        rw [Nat.and_assoc]
        have e : (0xff &&& classMask : Nat) = classMask := by decide
        rw [e]
        exact hstx
      have hle : (op &&& 0xff) &&& modeMask = AtomicMode := by
        rw [Nat.and_assoc]
        have e : (0xff &&& modeMask : Nat) = modeMask := by decide
        rw [e]
        exact hmode
      have hlo : op &&& 0xff < 0x100 :=
        lt_of_le_of_lt Nat.and_le_right (by norm_num)
      have hl := lowbyte_atomic_cases (op &&& 0xff) hlo hl7 hle
      have hnamed' : namedAtomicOp (op &&& 0xff00) = true := by
        simpa [atomicMask] using hnamed
      have hsplit := split16 hlt
      calc noBadSub (OpCode.render op)
          = noBadSub (OpCode.render ((op &&& 0xff00) ||| (op &&& 0xff))) := by
            rw [hsplit]
      _ = true := atomic_render_ok _ _ hnamed' hl
    next =>
      simp only [Bool.and_eq_true, decide_eq_true_eq] at h
      exact render_lowbyte_ok op h.1 h0
  next =>
    split at h
    next =>
      simp only [Bool.and_eq_true, decide_eq_true_eq] at h
      exact render_lowbyte_ok op h.1 h0
    next =>
      simp only [Bool.and_eq_true, decide_eq_true_eq] at h
      exact render_lowbyte_ok op h.1.1 h0

/-- Witness for C8 amended at the atomic opcode `0xf1db`
(`StXAtomicCmpXChgDW`). -/
theorem claim8_amended_witness :
    validOpCode 0xf1db = true ∧ noBadSub (OpCode.render 0xf1db) = true :=
  ⟨by decide, claim8_amended 0xf1db (by decide)⟩

end Asm
